import Mathlib

/-
Verification of the Guest Compute Core (gcsCore) lifecycle manager.

The definitions below are a shallow embedding of the Go file
service/gcs/core (gcsCore and its helpers).  Go maps are embedded as
association lists with Go-map lookup/insert/delete semantics; fallible
collaborator calls (runtime, OS, storage) are embedded as boolean outcome
fields of explicit environment records; the background supervisor
goroutines are embedded as explicit event traces executed by a step
function, so that happens-before claims become statements about trace
prefixes.  Machine integers (pids, exit codes, signals) are embedded as
Int; LUNs and ports as Nat.
-/

/-- Mapped virtual disk descriptor (prot.MappedVirtualDisk); the core only
inspects the Lun field, the rest is opaque payload. -/
structure MappedVirtualDisk where
  lun : Nat
  containerPath : String
  deriving DecidableEq

/-- Mapped directory descriptor (prot.MappedDirectory); the core only
inspects the Port field. -/
structure MappedDirectory where
  port : Nat
  containerPath : String
  deriving DecidableEq

/-- Network adapter descriptor (prot.NetworkAdapter), opaque to the core. -/
structure NetworkAdapter where
  adapterId : String
  deriving DecidableEq

/-- Association list used to embed Go maps. -/
abbrev AListM (α β : Type) := List (α × β)

/-- Go map read m[k]. -/
def lookupA {α β : Type} [DecidableEq α] (m : AListM α β) (k : α) : Option β :=
  match m with
  | [] => none
  | (k0, v0) :: rest => if k0 = k then some v0 else lookupA rest k

/-- Go map write m[k] = v: replaces the binding when the key is present,
appends it otherwise. -/
def insertA {α β : Type} [DecidableEq α] (m : AListM α β) (k : α) (v : β) : AListM α β :=
  match m with
  | [] => [(k, v)]
  | (k0, v0) :: rest => if k0 = k then (k, v) :: rest else (k0, v0) :: insertA rest k v

/-- Go map delete(m, k). -/
def eraseA {α β : Type} [DecidableEq α] (m : AListM α β) (k : α) : AListM α β :=
  match m with
  | [] => []
  | (k0, v0) :: rest => if k0 = k then eraseA rest k else (k0, v0) :: eraseA rest k

/-- Keys of an embedded Go map. -/
def keysA {α β : Type} (m : AListM α β) : List α := m.map Prod.fst

theorem lookupA_insertA_self {α β : Type} [DecidableEq α] (m : AListM α β) (k : α) (v : β) :
    lookupA (insertA m k v) k = some v := by
  induction m with
  | nil => simp [insertA, lookupA]
  | cons hd tl ih =>
    obtain ⟨k0, v0⟩ := hd
    by_cases h : k0 = k
    · simp [insertA, lookupA, h]
    · simp [insertA, lookupA, h, ih]

theorem lookupA_insertA_ne {α β : Type} [DecidableEq α] (m : AListM α β) (k q : α) (v : β)
    (h : k ≠ q) : lookupA (insertA m k v) q = lookupA m q := by
  induction m with
  | nil => simp [insertA, lookupA, h]
  | cons hd tl ih =>
    obtain ⟨k0, v0⟩ := hd
    by_cases h0 : k0 = k
    · subst h0
      simp [insertA, lookupA, h]
    · simp [insertA, lookupA, h0, ih]

theorem lookupA_insertA_isSome {α β : Type} [DecidableEq α] (m : AListM α β) (k q : α) (v : β)
    (h : (lookupA m q).isSome) : (lookupA (insertA m k v) q).isSome := by
  by_cases hkq : k = q
  · subst hkq
    simp [lookupA_insertA_self]
  · rw [lookupA_insertA_ne m k q v hkq]
    exact h

theorem eraseA_of_lookupA_none {α β : Type} [DecidableEq α] (m : AListM α β) (k : α)
    (h : lookupA m k = none) : eraseA m k = m := by
  induction m with
  | nil => simp [eraseA]
  | cons hd tl ih =>
    obtain ⟨k0, v0⟩ := hd
    by_cases h0 : k0 = k
    · simp [lookupA, h0] at h
    · simp [lookupA, h0] at h
      simp [eraseA, h0, ih h]

theorem eraseA_insertA_of_none {α β : Type} [DecidableEq α] (m : AListM α β) (k : α) (v : β)
    (h : lookupA m k = none) : eraseA (insertA m k v) k = m := by
  induction m with
  | nil => simp [insertA, eraseA]
  | cons hd tl ih =>
    obtain ⟨k0, v0⟩ := hd
    by_cases h0 : k0 = k
    · simp [lookupA, h0] at h
    · simp [lookupA, h0] at h
      simp [insertA, eraseA, h0, ih h]

theorem mem_keysA_insertA {α β : Type} [DecidableEq α] (m : AListM α β) (k q : α) (v : β) :
    q ∈ keysA (insertA m k v) ↔ q ∈ keysA m ∨ q = k := by
  induction m with
  | nil => simp [insertA, keysA]
  | cons hd tl ih =>
    obtain ⟨k0, v0⟩ := hd
    by_cases h0 : k0 = k
    · subst h0
      simp [insertA, keysA]
      tauto
    · simp [insertA, keysA, h0] at ih ⊢
      rw [ih]
      tauto

theorem keysA_nodup_insertA {α β : Type} [DecidableEq α] (m : AListM α β) (k : α) (v : β)
    (h : (keysA m).Nodup) : (keysA (insertA m k v)).Nodup := by
  induction m with
  | nil => simp [insertA, keysA]
  | cons hd tl ih =>
    obtain ⟨k0, v0⟩ := hd
    rw [show keysA ((k0, v0) :: tl) = k0 :: keysA tl from rfl, List.nodup_cons] at h
    by_cases h0 : k0 = k
    · subst h0
      rw [show insertA ((k0, v0) :: tl) k0 v = (k0, v) :: tl from by simp [insertA]]
      rw [show keysA ((k0, v) :: tl) = k0 :: keysA tl from rfl, List.nodup_cons]
      exact h
    · rw [show insertA ((k0, v0) :: tl) k v = (k0, v0) :: insertA tl k v from by
        simp [insertA, h0]]
      rw [show keysA ((k0, v0) :: insertA tl k v) = k0 :: keysA (insertA tl k v) from rfl,
        List.nodup_cons]
      refine ⟨?_, ih h.2⟩
      intro hmem
      rcases (mem_keysA_insertA tl k k0 v).1 hmem with hk | hk
      · exact h.1 hk
      · exact h0 hk

/-- Request type of a ResourceModificationRequestResponse (prot.RtAdd and
prot.RtRemove are the cases the core handles; rtOther embeds any other
string constant such as prot.RtUpdate). -/
inductive RequestType where
  | rtAdd
  | rtRemove
  | rtOther (s : String)
  deriving DecidableEq

/-- Resource type of a ResourceModificationRequestResponse
(prot.PtMappedVirtualDisk, prot.PtMappedDirectory, or any other value). -/
inductive ResourceType where
  | ptMappedVirtualDisk
  | ptMappedDirectory
  | ptOther (s : String)
  deriving DecidableEq

/-- Error kinds produced by the core (package gcserr plus the inline
errors.Errorf cases of gcsCore).  nilRuntimeHandle embeds the Go runtime
panic that results from invoking ExecProcess on the nil runtime.Container
stored in a container cache entry whose init process was never created. -/
inductive GcsError where
  | containerExists (id : String)
  | containerDoesNotExist (id : String)
  | processDoesNotExist (pid : Int)
  | duplicateMappedDiskLun (id : String) (lun : Nat)
  | duplicateMappedDirectoryPort (id : String) (port : Nat)
  | unsupportedResource (rt : RequestType) (pt : ResourceType)
  | unsupportedRequest (rt : RequestType)
  | settingsCastFailure
  | storageFailure (op : String)
  | runtimeFailure (op : String)
  | osFailure (op : String)
  | commandLineParseFailure
  | notATerminal (pid : Int)
  | nilRuntimeHandle
  deriving DecidableEq

/-- Per-container cached state (containerCacheEntry).  The runtime.Container
pointer is embedded as the boolean hasContainer (present or nil); the
sync.WaitGroup exit latch is embedded as its counter exitWgCount, with the
value zero meaning released (waiters unblock). -/
structure ContainerCacheEntry where
  id : String
  mappedVirtualDisks : AListM Nat MappedVirtualDisk
  mappedDirectories : AListM Nat MappedDirectory
  networkAdapters : List NetworkAdapter
  hasContainer : Bool
  hasRunInitProcess : Bool
  exitWgCount : Nat
  exitCode : Int
  deriving DecidableEq

/-- newContainerCacheEntry: fresh entry with empty maps and exitCode -1. -/
def newContainerCacheEntry (id : String) : ContainerCacheEntry :=
  { id := id
    mappedVirtualDisks := []
    mappedDirectories := []
    networkAdapters := []
    hasContainer := false
    hasRunInitProcess := false
    exitWgCount := 0
    exitCode := -1 }

/-- containerCacheEntry.AddNetworkAdapter: append to the adapter slice. -/
def ContainerCacheEntry.addNetworkAdapter (e : ContainerCacheEntry) (a : NetworkAdapter) :
    ContainerCacheEntry :=
  { e with networkAdapters := e.networkAdapters ++ [a] }

/-- containerCacheEntry.AddMappedVirtualDisk: error when the LUN is already
a key of the disk map, otherwise map insert. -/
def ContainerCacheEntry.addMappedVirtualDisk (e : ContainerCacheEntry)
    (disk : MappedVirtualDisk) : Except GcsError ContainerCacheEntry :=
  match lookupA e.mappedVirtualDisks disk.lun with
  | some _ => .error (.duplicateMappedDiskLun e.id disk.lun)
  | none => .ok { e with mappedVirtualDisks := insertA e.mappedVirtualDisks disk.lun disk }

/-- containerCacheEntry.RemoveMappedVirtualDisk: warn-only no-op when the
LUN is absent, otherwise map delete. -/
def ContainerCacheEntry.removeMappedVirtualDisk (e : ContainerCacheEntry)
    (disk : MappedVirtualDisk) : ContainerCacheEntry :=
  match lookupA e.mappedVirtualDisks disk.lun with
  | none => e
  | some _ => { e with mappedVirtualDisks := eraseA e.mappedVirtualDisks disk.lun }

/-- containerCacheEntry.AddMappedDirectory: error when the port is already
a key of the directory map, otherwise map insert. -/
def ContainerCacheEntry.addMappedDirectory (e : ContainerCacheEntry)
    (dir : MappedDirectory) : Except GcsError ContainerCacheEntry :=
  match lookupA e.mappedDirectories dir.port with
  | some _ => .error (.duplicateMappedDirectoryPort e.id dir.port)
  | none => .ok { e with mappedDirectories := insertA e.mappedDirectories dir.port dir }

/-- containerCacheEntry.RemoveMappedDirectory: warn-only no-op when the
port is absent, otherwise map delete. -/
def ContainerCacheEntry.removeMappedDirectory (e : ContainerCacheEntry)
    (dir : MappedDirectory) : ContainerCacheEntry :=
  match lookupA e.mappedDirectories dir.port with
  | none => e
  | some _ => { e with mappedDirectories := eraseA e.mappedDirectories dir.port }

/-- Per-process cached state (processCacheEntry).  The TtyRelay pointer is
embedded as the boolean hasTty; the exit latch as its counter. -/
structure ProcessCacheEntry where
  containerID : String
  hasTty : Bool
  exitWgCount : Nat
  exitCode : Int
  deriving DecidableEq

/-- newProcessCacheEntry: fresh entry with exitCode -1. -/
def newProcessCacheEntry (containerID : String) : ProcessCacheEntry :=
  { containerID := containerID, hasTty := false, exitWgCount := 0, exitCode := -1 }

/-- The container registry (gcsCore.containerCache). -/
abbrev ContainerCache := AListM String ContainerCacheEntry

/-- The process registry (gcsCore.processCache). -/
abbrev ProcessCache := AListM Int ProcessCacheEntry

/-- gcsCore.getContainer. -/
def getContainer (cache : ContainerCache) (id : String) : Option ContainerCacheEntry :=
  lookupA cache id

/-- Request-level process parameters (prot.ProcessParameters); the
OCISpecification payload of an init process is opaque to the translation
and is embedded by the writeConfigOk outcome of ExecEnv below. -/
structure ProcessParameters where
  commandArgs : List String
  commandLine : String
  workingDirectory : String
  environment : AListM String String
  emulateConsole : Bool
  deriving DecidableEq

/-- OCI user document (oci.User). -/
structure OCIUser where
  uid : Nat
  gid : Nat
  deriving DecidableEq

/-- OCI capability sets (oci.LinuxCapabilities). -/
structure LinuxCapabilities where
  bounding : List String
  effective : List String
  inheritable : List String
  permitted : List String
  ambient : List String
  deriving DecidableEq

/-- OCI rlimit entry (oci.LinuxRlimit). -/
structure LinuxRlimit where
  type : String
  hard : Nat
  soft : Nat
  deriving DecidableEq

/-- OCI process document (oci.Process), restricted to the fields the
translation populates. -/
structure OCIProcess where
  args : List String
  cwd : String
  env : List String
  terminal : Bool
  user : OCIUser
  capabilities : LinuxCapabilities
  rlimits : List LinuxRlimit
  noNewPrivileges : Bool
  deriving DecidableEq

/-- Single quote character. -/
def squote : Char := Char.ofNat 39

/-- Double quote character. -/
def dquote : Char := Char.ofNat 34

/-- Modelled from the spec: the external go-shellwords library (not under
src/) tokenizes a command line with standard shell-style word splitting;
this model splits on spaces, treats single- or double-quoted runs as part
of the current word, and fails on an unterminated quote. -/
def shellSplitAux (cs : List Char) (quote : Option Char) (cur : List Char)
    (acc : List String) : Except GcsError (List String) :=
  match cs with
  | [] =>
    match quote with
    | some _ => .error .commandLineParseFailure
    | none => .ok (if cur = [] then acc else acc ++ [String.mk cur])
  | c :: rest =>
    match quote with
    | some q =>
      if c = q then shellSplitAux rest none cur acc
      else shellSplitAux rest (some q) (cur ++ [c]) acc
    | none =>
      if c = ' ' then
        (if cur = [] then shellSplitAux rest none [] acc
         else shellSplitAux rest none [] (acc ++ [String.mk cur]))
      else if c = squote ∨ c = dquote then shellSplitAux rest (some c) cur acc
      else shellSplitAux rest none (cur ++ [c]) acc

/-- Modelled from the spec: shellwords.Parse of the go-shellwords library. -/
def shellwordsParse (s : String) : Except GcsError (List String) :=
  shellSplitAux s.toList none [] []

/-- processParamCommandLineToOCIArgs: split the command line, wrapping a
parse failure into an error. -/
def processParamCommandLineToOCIArgs (commandLine : String) :
    Except GcsError (List String) :=
  shellwordsParse commandLine

/-- processParamEnvToOCIEnv: turn the environment map into KEY=VALUE
entries, in the order the map yields them. -/
def processParamEnvToOCIEnv (environment : AListM String String) : List String :=
  environment.map (fun kv => kv.1 ++ "=" ++ kv.2)

/-- The fixed capability list installed in each of the five capability
sets by processParametersToOCI, in source order. -/
def defaultCapabilities : List String :=
  ["CAP_AUDIT_WRITE", "CAP_KILL", "CAP_NET_BIND_SERVICE", "CAP_SYS_ADMIN",
   "CAP_NET_ADMIN", "CAP_SETGID", "CAP_SETUID", "CAP_CHOWN", "CAP_FOWNER",
   "CAP_DAC_OVERRIDE", "CAP_NET_RAW"]

/-- processParametersToOCI: convert request parameters into an OCI process
document, choosing fixed defaults for user, capabilities, rlimits and
noNewPrivileges. -/
def processParametersToOCI (params : ProcessParameters) :
    Except GcsError OCIProcess := do
  let args ← if params.commandArgs.length = 0
             then processParamCommandLineToOCIArgs params.commandLine
             else pure params.commandArgs
  pure
    { args := args
      cwd := params.workingDirectory
      env := processParamEnvToOCIEnv params.environment
      terminal := params.emulateConsole
      user := { uid := 0, gid := 0 }
      capabilities :=
        { bounding := defaultCapabilities
          effective := defaultCapabilities
          inheritable := defaultCapabilities
          permitted := defaultCapabilities
          ambient := defaultCapabilities }
      rlimits := [{ type := "RLIMIT_NOFILE", hard := 1024, soft := 1024 }]
      noNewPrivileges := true }

/-- Outcomes of the storage and OS collaborator calls made by
CreateContainer and ModifySettings (storage.go is consumed by interface;
each field records whether the corresponding call succeeds). -/
structure StorageEnv where
  getMappedVirtualDiskMountsOk : Bool
  mountMappedVirtualDisksOk : Bool
  mountMappedDirectoriesOk : Bool
  unmountMappedVirtualDisksOk : Bool
  unmountMappedDirectoriesOk : Bool
  getLayerMountsOk : Bool
  mountLayersOk : Bool
  mkdirOk : Bool
  deriving DecidableEq

/-- Fold of containerCacheEntry.AddMappedVirtualDisk over a disk slice,
stopping at the first error, as in the loop of setupMappedVirtualDisks. -/
def addMappedVirtualDisksToEntry (disks : List MappedVirtualDisk)
    (entry : ContainerCacheEntry) : Except GcsError ContainerCacheEntry :=
  match disks with
  | [] => .ok entry
  | d :: rest => do
    let e2 ← entry.addMappedVirtualDisk d
    addMappedVirtualDisksToEntry rest e2

/-- Fold of containerCacheEntry.AddMappedDirectory over a directory slice,
stopping at the first error, as in the loop of setupMappedDirectories. -/
def addMappedDirectoriesToEntry (dirs : List MappedDirectory)
    (entry : ContainerCacheEntry) : Except GcsError ContainerCacheEntry :=
  match dirs with
  | [] => .ok entry
  | d :: rest => do
    let e2 ← entry.addMappedDirectory d
    addMappedDirectoriesToEntry rest e2

/-- gcsCore.setupMappedVirtualDisks: resolve mounts, mount, then add each
disk to the entry; the first failing step aborts. -/
def setupMappedVirtualDisks (env : StorageEnv) (disks : List MappedVirtualDisk)
    (entry : ContainerCacheEntry) : Except GcsError ContainerCacheEntry :=
  if ¬ env.getMappedVirtualDiskMountsOk then
    .error (.storageFailure "getMappedVirtualDiskMounts")
  else if ¬ env.mountMappedVirtualDisksOk then
    .error (.storageFailure "mountMappedVirtualDisks")
  else addMappedVirtualDisksToEntry disks entry

/-- gcsCore.setupMappedDirectories: mount, then add each directory. -/
def setupMappedDirectories (env : StorageEnv) (dirs : List MappedDirectory)
    (entry : ContainerCacheEntry) : Except GcsError ContainerCacheEntry :=
  if ¬ env.mountMappedDirectoriesOk then
    .error (.storageFailure "mountMappedDirectories")
  else addMappedDirectoriesToEntry dirs entry

/-- gcsCore.removeMappedVirtualDisks: unmount, then remove each disk from
the entry (removal itself never fails). -/
def removeMappedVirtualDisks (env : StorageEnv) (disks : List MappedVirtualDisk)
    (entry : ContainerCacheEntry) : Except GcsError ContainerCacheEntry :=
  if ¬ env.unmountMappedVirtualDisksOk then
    .error (.storageFailure "unmountMappedVirtualDisks")
  else .ok (disks.foldl (fun e d => e.removeMappedVirtualDisk d) entry)

/-- gcsCore.removeMappedDirectories: unmount, then remove each directory. -/
def removeMappedDirectories (env : StorageEnv) (dirs : List MappedDirectory)
    (entry : ContainerCacheEntry) : Except GcsError ContainerCacheEntry :=
  if ¬ env.unmountMappedDirectoriesOk then
    .error (.storageFailure "unmountMappedDirectories")
  else .ok (dirs.foldl (fun e d => e.removeMappedDirectory d) entry)

/-- CreateContainer settings (prot.VMHostedContainerSettings); layer and
sandbox paths are opaque, their handling is embedded by the layer outcome
fields of StorageEnv. -/
structure VMHostedContainerSettings where
  mappedVirtualDisks : List MappedVirtualDisk
  mappedDirectories : List MappedDirectory
  networkAdapters : List NetworkAdapter
  deriving DecidableEq

/-- gcsCore.CreateContainer.  Returns the call result together with the
container registry after the call; the Go method writes the registry only
on the success path (containerCache[id] = entry is its last statement), so
every error branch returns the registry unchanged.  The fresh entry has
its exit latch pre-armed (exitWg.Add(1)). -/
def createContainer (env : StorageEnv) (cache : ContainerCache) (id : String)
    (settings : VMHostedContainerSettings) :
    Except GcsError Unit × ContainerCache :=
  match getContainer cache id with
  | some _ => (.error (.containerExists id), cache)
  | none =>
    let entry0 := { newContainerCacheEntry id with exitWgCount := 1 }
    match setupMappedVirtualDisks env settings.mappedVirtualDisks entry0 with
    | .error e => (.error e, cache)
    | .ok entry1 =>
      match setupMappedDirectories env settings.mappedDirectories entry1 with
      | .error e => (.error e, cache)
      | .ok entry2 =>
        if ¬ env.getLayerMountsOk then (.error (.storageFailure "getLayerMounts"), cache)
        else if ¬ env.mountLayersOk then (.error (.storageFailure "mountLayers"), cache)
        else
          let entry3 := settings.networkAdapters.foldl
            (fun e a => e.addNetworkAdapter a) entry2
          if ¬ env.mkdirOk then (.error (.osFailure "MkdirAll"), cache)
          else (.ok (), insertA cache id entry3)

/-- Outcomes of the runtime and OS collaborator calls made by ExecProcess:
config-file write, runtime create, per-namespace adapter configuration,
runtime start, runtime exec, plus the pid and tty reported by the runtime
for the resulting process handle. -/
structure ExecEnv where
  writeConfigOk : Bool
  createContainerOk : Bool
  configureAdaptersOk : Bool
  startOk : Bool
  runtimeExecOk : Bool
  pid : Int
  ptty : Bool
  deriving DecidableEq

/-- Result of the synchronous part of gcsCore.ExecProcess: the returned
value, both registries after the call, and which supervisor goroutine was
spawned during the call (the supervisor bodies themselves are embedded
separately as traces below). -/
structure ExecResult where
  res : Except GcsError Int
  ccache : ContainerCache
  pcache : ProcessCache
  spawnedInitSupervisor : Bool
  spawnedChildSupervisor : Bool

/-- gcsCore.ExecProcess.  The container entry is a pointer in Go, so every
field write is immediately visible in the registry: the embedding re-inserts
the updated entry at each mutation.  Init path: the hasRunInitProcess flag
is set before the fallible steps; on a config-write or create failure the
container exit latch is released (exitWg.Done) with the exit code still at
its initial -1 and the runtime handle still nil; on an adapter-configuration
failure the latch is likewise released but the runtime handle has already
been stored; on a start failure the init supervisor (already spawned) keeps
ownership of the latch.  Non-init path: translate the parameters, then call
ExecProcess on the stored runtime.Container, which is nil when the init
creation previously failed (a Go nil-interface call, embedded as the
nilRuntimeHandle error). -/
def execProcess (env : ExecEnv) (ccache : ContainerCache) (pcache : ProcessCache)
    (id : String) (params : ProcessParameters) : ExecResult :=
  match getContainer ccache id with
  | none => ⟨.error (.containerDoesNotExist id), ccache, pcache, false, false⟩
  | some containerEntry =>
    if ¬ containerEntry.hasRunInitProcess then
      let e1 := { containerEntry with hasRunInitProcess := true }
      if ¬ env.writeConfigOk then
        ⟨.error (.osFailure "writeConfigFile"),
          insertA ccache id { e1 with exitWgCount := e1.exitWgCount - 1 },
          pcache, false, false⟩
      else if ¬ env.createContainerOk then
        ⟨.error (.runtimeFailure "CreateContainer"),
          insertA ccache id { e1 with exitWgCount := e1.exitWgCount - 1 },
          pcache, false, false⟩
      else
        let e2 := { e1 with hasContainer := true }
        let processEntry :=
          { newProcessCacheEntry id with exitWgCount := 1, hasTty := env.ptty }
        if ¬ env.configureAdaptersOk then
          ⟨.error (.osFailure "configureAdapterInNamespace"),
            insertA ccache id { e2 with exitWgCount := e2.exitWgCount - 1 },
            pcache, false, false⟩
        else if ¬ env.startOk then
          ⟨.error (.runtimeFailure "Start"), insertA ccache id e2, pcache, true, false⟩
        else
          ⟨.ok env.pid, insertA ccache id e2, insertA pcache env.pid processEntry,
            true, false⟩
    else
      match processParametersToOCI params with
      | .error e => ⟨.error e, ccache, pcache, false, false⟩
      | .ok _ociProcess =>
        if ¬ containerEntry.hasContainer then
          ⟨.error .nilRuntimeHandle, ccache, pcache, false, false⟩
        else if ¬ env.runtimeExecOk then
          ⟨.error (.runtimeFailure "ExecProcess"), ccache, pcache, false, false⟩
        else
          let processEntry :=
            { newProcessCacheEntry id with exitWgCount := 1, hasTty := env.ptty }
          ⟨.ok env.pid, ccache, insertA pcache env.pid processEntry, false, true⟩

/-- Joint state of the init process entry, the container entry and the
container registry presence, as seen by the init supervisor and by
blocked waiters.  A latch counter of zero means released. -/
structure SupState where
  procExit : Int
  procLatch : Nat
  contExit : Int
  contLatch : Nat
  inContainerCache : Bool
  deriving DecidableEq

/-- One atomic action of the init supervisor goroutine. -/
inductive SupEvent where
  | cleanupContainer
  | assignProcExit (code : Int)
  | releaseProcLatch
  | assignContExit (code : Int)
  | releaseContLatch
  | removeFromContainerCache
  deriving DecidableEq

/-- Effect of one supervisor action on the shared state. -/
def supStep (s : SupState) : SupEvent → SupState
  | .cleanupContainer => s
  | .assignProcExit code => { s with procExit := code }
  | .releaseProcLatch => { s with procLatch := s.procLatch - 1 }
  | .assignContExit code => { s with contExit := code }
  | .releaseContLatch => { s with contLatch := s.contLatch - 1 }
  | .removeFromContainerCache => { s with inContainerCache := false }

/-- Run a sequence of supervisor actions. -/
def runSup (s : SupState) (events : List SupEvent) : SupState :=
  events.foldl supStep s

/-- The init supervisor goroutine of gcsCore.ExecProcess, as the sequence
of actions it performs after container.Wait returns with exit code
waitCode and error status waitErr: an extra cleanup when the wait errored,
the unconditional cleanup, then assign and release for the process entry,
assign and release for the container entry, then registry removal.  The
exit code of the wait state is recorded in both entries whether or not the
wait returned an error. -/
def initSupervisorTrace (waitErr : Bool) (waitCode : Int) : List SupEvent :=
  (if waitErr then [SupEvent.cleanupContainer] else []) ++
  [SupEvent.cleanupContainer,
   SupEvent.assignProcExit waitCode,
   SupEvent.releaseProcLatch,
   SupEvent.assignContExit waitCode,
   SupEvent.releaseContLatch,
   SupEvent.removeFromContainerCache]

/-- State at the moment the init supervisor starts: both exit codes at the
initial -1, both latches armed with one count, entry present in the
registry (the configuration established by CreateContainer plus the
successful prefix of ExecProcess). -/
def initSupervisorStart : SupState :=
  { procExit := -1, procLatch := 1, contExit := -1, contLatch := 1,
    inContainerCache := true }

/-- State after the init supervisor has run to completion. -/
def initSupervisorFinal (waitErr : Bool) (waitCode : Int) : SupState :=
  runSup initSupervisorStart (initSupervisorTrace waitErr waitCode)

/-- A WaitContainer caller blocked on the container exit latch: it returns
(successfully) only once the latch is released, and then reads the exit
code field. -/
def waitContainerObserve (s : SupState) : Option Int :=
  if s.contLatch = 0 then some s.contExit else none

/-- A WaitProcess caller blocked on the process exit latch. -/
def waitProcessObserve (s : SupState) : Option Int :=
  if s.procLatch = 0 then some s.procExit else none

/-- The child-process supervisor goroutine of gcsCore.ExecProcess: waits on
the process, logs a wait error without acting on it, records the exit
state code regardless, and releases the process exit latch afterwards.
The runtime delete that follows touches no registry state. -/
def childProcessSupervisor (waitErr : Bool) (waitCode : Int)
    (e : ProcessCacheEntry) : ProcessCacheEntry :=
  let _ := waitErr
  { e with exitCode := waitCode, exitWgCount := e.exitWgCount - 1 }

/-- The external-process supervisor goroutine of gcsCore.RunExternalProcess:
identical recording discipline, on the host-process entry. -/
def externalProcessSupervisor (waitErr : Bool) (waitCode : Int)
    (e : ProcessCacheEntry) : ProcessCacheEntry :=
  let _ := waitErr
  { e with exitCode := waitCode, exitWgCount := e.exitWgCount - 1 }

/-- The SIGKILL signal number used by the signal-zero translation. -/
def SIGKILL : Int := 9

/-- Outcome of the OS kill collaborator call. -/
structure SignalEnv where
  killOk : Bool
  deriving DecidableEq

/-- gcsCore.SignalProcess.  Returns the call result together with the list
of (pid, signal) calls delivered to the OS kill collaborator.  A requested
signal value of zero is translated to SIGKILL before delivery; any other
value is delivered unchanged.  The process registry is only read. -/
def signalProcess (env : SignalEnv) (pcache : ProcessCache) (pid : Int)
    (optionsSignal : Int) : Except GcsError Unit × List (Int × Int) :=
  match lookupA pcache pid with
  | none => (.error (.processDoesNotExist pid), [])
  | some _ =>
    let signal := if optionsSignal = 0 then SIGKILL else optionsSignal
    if env.killOk then (.ok (), [(pid, signal)])
    else (.error (.osFailure "Kill"), [(pid, signal)])

/-- Outcomes of the console, stdio and spawn collaborator calls made by
RunExternalProcess, plus the pid of the spawned command. -/
structure RunExternalEnv where
  newConsoleOk : Bool
  openFileOk : Bool
  filesOk : Bool
  startOk : Bool
  pid : Int
  deriving DecidableEq

/-- gcsCore.RunExternalProcess.  Translates the parameters, wires stdio
(console pair when EmulateConsole, plain files otherwise), starts the
command, then inserts a host-process entry (empty container ID, armed exit
latch, tty relay present exactly when a console was emulated) into the
process registry under the spawned pid.  Every failure leaves the registry
unchanged. -/
def runExternalProcess (env : RunExternalEnv) (pcache : ProcessCache)
    (params : ProcessParameters) : Except GcsError Int × ProcessCache :=
  match processParametersToOCI params with
  | .error e => (.error e, pcache)
  | .ok _ociProcess =>
    let stdioOutcome : Except GcsError Bool :=
      if params.emulateConsole then
        if ¬ env.newConsoleOk then .error (.osFailure "NewConsole")
        else if ¬ env.openFileOk then .error (.osFailure "OpenFile")
        else .ok true
      else
        if ¬ env.filesOk then .error (.osFailure "Files")
        else .ok false
    match stdioOutcome with
    | .error e => (.error e, pcache)
    | .ok relay =>
      if ¬ env.startOk then (.error (.osFailure "Start"), pcache)
      else
        let processEntry :=
          { newProcessCacheEntry "" with exitWgCount := 1, hasTty := relay }
        (.ok env.pid, insertA pcache env.pid processEntry)

/-- Settings payload of a modification request
(prot.ResourceModificationSettings). -/
structure ResourceModificationSettings where
  mappedVirtualDisk : MappedVirtualDisk
  mappedDirectory : MappedDirectory
  deriving DecidableEq

/-- Modification request (prot.ResourceModificationRequestResponse); the
settings field is none when the Go interface cast to
ResourceModificationSettings fails. -/
structure ResourceModificationRequestResponse where
  requestType : RequestType
  resourceType : ResourceType
  settings : Option ResourceModificationSettings
  deriving DecidableEq

/-- gcsCore.ModifySettings.  Dispatches on (RequestType, ResourceType);
the four supported combinations delegate to the storage orchestrator on a
one-element slice, every other combination fails with an unsupported
error.  Returns the call result and the container registry after the
call; entry mutations reach the registry only through the successful
delegate (the entry is a pointer in Go, and on every failing path the
delegate has not mutated it). -/
def modifySettings (env : StorageEnv) (cache : ContainerCache) (id : String)
    (request : ResourceModificationRequestResponse) :
    Except GcsError Unit × ContainerCache :=
  match getContainer cache id with
  | none => (.error (.containerDoesNotExist id), cache)
  | some containerEntry =>
    match request.settings with
    | none => (.error .settingsCastFailure, cache)
    | some settings =>
      match request.requestType, request.resourceType with
      | .rtAdd, .ptMappedVirtualDisk =>
        match setupMappedVirtualDisks env [settings.mappedVirtualDisk] containerEntry with
        | .error e => (.error e, cache)
        | .ok e2 => (.ok (), insertA cache id e2)
      | .rtAdd, .ptMappedDirectory =>
        match setupMappedDirectories env [settings.mappedDirectory] containerEntry with
        | .error e => (.error e, cache)
        | .ok e2 => (.ok (), insertA cache id e2)
      | .rtRemove, .ptMappedVirtualDisk =>
        match removeMappedVirtualDisks env [settings.mappedVirtualDisk] containerEntry with
        | .error e => (.error e, cache)
        | .ok e2 => (.ok (), insertA cache id e2)
      | .rtRemove, .ptMappedDirectory =>
        match removeMappedDirectories env [settings.mappedDirectory] containerEntry with
        | .error e => (.error e, cache)
        | .ok e2 => (.ok (), insertA cache id e2)
      | .rtAdd, .ptOther s => (.error (.unsupportedResource .rtAdd (.ptOther s)), cache)
      | .rtRemove, .ptOther s => (.error (.unsupportedResource .rtRemove (.ptOther s)), cache)
      | .rtOther s, _ => (.error (.unsupportedRequest (.rtOther s)), cache)

/-- gcsCore.WaitContainer, on the registry: a registry miss returns -1
together with the error; otherwise the caller blocks on the exit latch of
the entry it found (none embeds a call that has not returned yet) and
returns the recorded exit code once the latch count is zero. -/
def waitContainer (cache : ContainerCache) (id : String) :
    Option (Int × Option GcsError) :=
  match getContainer cache id with
  | none => some (-1, some (.containerDoesNotExist id))
  | some entry =>
    if entry.exitWgCount = 0 then some (entry.exitCode, none) else none

/-- gcsCore.WaitProcess, symmetric on the process registry. -/
def waitProcess (pcache : ProcessCache) (pid : Int) :
    Option (Int × Option GcsError) :=
  match lookupA pcache pid with
  | none => some (-1, some (.processDoesNotExist pid))
  | some entry =>
    if entry.exitWgCount = 0 then some (entry.exitCode, none) else none

/-- Outcome of the tty relay resize call. -/
structure ResizeEnv where
  resizeOk : Bool
  deriving DecidableEq

/-- gcsCore.ResizeConsole: registry miss fails, a process without a tty
relay fails as not-a-terminal, otherwise the relay is invoked.  The
process registry is only read. -/
def resizeConsole (env : ResizeEnv) (pcache : ProcessCache) (pid : Int) :
    Except GcsError Unit :=
  match lookupA pcache pid with
  | none => .error (.processDoesNotExist pid)
  | some p =>
    if ¬ p.hasTty then .error (.notATerminal pid)
    else if env.resizeOk then .ok () else .error (.osFailure "ResizeConsole")

theorem createContainer_cases (env : StorageEnv) (cache : ContainerCache) (id : String)
    (settings : VMHostedContainerSettings) :
    (createContainer env cache id settings).2 = cache ∨
    (createContainer env cache id settings).1 = .ok () := by
  unfold createContainer
  cases hl : getContainer cache id with
  | some e => left; rfl
  | none =>
    dsimp only
    cases hs : setupMappedVirtualDisks env settings.mappedVirtualDisks
        { newContainerCacheEntry id with exitWgCount := 1 } with
    | error e => left; simp [hs]
    | ok e1 =>
      simp only [hs]
      cases hd : setupMappedDirectories env settings.mappedDirectories e1 with
      | error e => left; simp [hd]
      | ok e2 =>
        simp only [hd]
        by_cases h1 : env.getLayerMountsOk
        · by_cases h2 : env.mountLayersOk
          · by_cases h3 : env.mkdirOk
            · right; simp [h1, h2, h3]
            · left; simp [h1, h2, h3]
          · left; simp [h1, h2]
        · left; simp [h1]

/-- C7: on a container entry, RemoveMappedVirtualDisk with a LUN absent from
the disk map is a no-op that succeeds and leaves the entry unchanged, and
AddMappedVirtualDisk of a disk followed by RemoveMappedVirtualDisk of the
same disk restores the disk map (and the whole entry) to its prior state. -/
theorem mapped_disk_add_remove_roundtrip (entry : ContainerCacheEntry)
    (disk : MappedVirtualDisk) :
    (lookupA entry.mappedVirtualDisks disk.lun = none →
      entry.removeMappedVirtualDisk disk = entry) ∧
    (∀ e2, entry.addMappedVirtualDisk disk = .ok e2 →
      e2.removeMappedVirtualDisk disk = entry) := by
  constructor
  · intro h
    unfold ContainerCacheEntry.removeMappedVirtualDisk
    rw [h]
  · intro e2 h
    unfold ContainerCacheEntry.addMappedVirtualDisk at h
    cases hl : lookupA entry.mappedVirtualDisks disk.lun with
    | some d => rw [hl] at h; cases h
    | none =>
      rw [hl] at h
      simp only [Except.ok.injEq] at h
      subst h
      unfold ContainerCacheEntry.removeMappedVirtualDisk
      simp only [lookupA_insertA_self]
      rw [eraseA_insertA_of_none entry.mappedVirtualDisks disk.lun disk hl]

/-- Witness for C7 at a concrete entry and disk. -/
theorem mapped_disk_add_remove_roundtrip_witness :
    (newContainerCacheEntry "c").removeMappedVirtualDisk ⟨3, "/tmp"⟩ =
      newContainerCacheEntry "c" ∧
    ({ newContainerCacheEntry "c" with
        mappedVirtualDisks := [(3, ⟨3, "/tmp"⟩)] } : ContainerCacheEntry
      ).removeMappedVirtualDisk ⟨3, "/tmp"⟩ = newContainerCacheEntry "c" :=
  ⟨(mapped_disk_add_remove_roundtrip (newContainerCacheEntry "c") ⟨3, "/tmp"⟩).1 rfl,
   (mapped_disk_add_remove_roundtrip (newContainerCacheEntry "c") ⟨3, "/tmp"⟩).2 _ rfl⟩

/-- C8: SignalProcess on a registered PID delivers SIGKILL through the OS
kill collaborator when the requested signal value is zero, and delivers a
nonzero value unchanged; on an unregistered PID it fails with
ProcessDoesNotExist and delivers nothing. -/
theorem signalProcess_zero_is_sigkill (env : SignalEnv) (pcache : ProcessCache)
    (pid sig : Int) :
    ((lookupA pcache pid).isSome →
      (signalProcess env pcache pid sig).2 =
        [(pid, if sig = 0 then SIGKILL else sig)]) ∧
    (lookupA pcache pid = none →
      signalProcess env pcache pid sig = (.error (.processDoesNotExist pid), [])) := by
  constructor
  · intro h
    unfold signalProcess
    cases hl : lookupA pcache pid with
    | none => rw [hl] at h; simp at h
    | some e =>
      by_cases hk : env.killOk <;> simp [hk]
  · intro h
    unfold signalProcess
    rw [h]

/-- Witness for C8: pid 5 registered with signal 0 delivers (5, 9); pid 5
unregistered fails. -/
theorem signalProcess_zero_is_sigkill_witness :
    (signalProcess ⟨true⟩ [((5 : Int), newProcessCacheEntry "c")] 5 0).2 =
      [((5 : Int), (9 : Int))] ∧
    signalProcess ⟨true⟩ [] 5 0 = (.error (.processDoesNotExist 5), []) := by
  constructor
  · have h := (signalProcess_zero_is_sigkill ⟨true⟩
      [((5 : Int), newProcessCacheEntry "c")] 5 0).1 (by rfl)
    simpa [SIGKILL] using h
  · exact (signalProcess_zero_is_sigkill ⟨true⟩ [] 5 0).2 rfl

/-- C2: CreateContainer fails with ContainerExists when the ID is already
registered, and on every error return (of any step) the container registry
is unchanged; insertion happens only on the success path. -/
theorem createContainer_registry_unchanged_on_error (env : StorageEnv)
    (cache : ContainerCache) (id : String) (settings : VMHostedContainerSettings) :
    ((getContainer cache id).isSome →
      createContainer env cache id settings = (.error (.containerExists id), cache)) ∧
    (∀ e, (createContainer env cache id settings).1 = .error e →
      (createContainer env cache id settings).2 = cache) := by
  constructor
  · intro h
    cases hl : getContainer cache id with
    | none => rw [hl] at h; simp at h
    | some entry => unfold createContainer; rw [hl]
  · intro e h
    rcases createContainer_cases env cache id settings with hc | hc
    · exact hc
    · rw [hc] at h
      cases h

/-- Witness for C2: creating an already-registered ID fails and leaves the
registry as it was. -/
theorem createContainer_registry_unchanged_on_error_witness :
    createContainer
        ⟨true, true, true, true, true, true, true, true⟩
        [("c", newContainerCacheEntry "c")] "c" ⟨[], [], []⟩ =
      (.error (.containerExists "c"), [("c", newContainerCacheEntry "c")]) := by
  have h := (createContainer_registry_unchanged_on_error
    ⟨true, true, true, true, true, true, true, true⟩
    [("c", newContainerCacheEntry "c")] "c" ⟨[], [], []⟩).1 (by rfl)
  exact h

theorem setupMappedVirtualDisks_duplicate (env : StorageEnv)
    (entry : ContainerCacheEntry) (disk d : MappedVirtualDisk)
    (hdup : lookupA entry.mappedVirtualDisks disk.lun = some d) :
    (∃ e, setupMappedVirtualDisks env [disk] entry = .error e) ∧
    (env.getMappedVirtualDiskMountsOk = true → env.mountMappedVirtualDisksOk = true →
      setupMappedVirtualDisks env [disk] entry =
        .error (.duplicateMappedDiskLun entry.id disk.lun)) := by
  unfold setupMappedVirtualDisks
  by_cases h1 : env.getMappedVirtualDiskMountsOk
  · by_cases h2 : env.mountMappedVirtualDisksOk
    · simp [h1, h2, addMappedVirtualDisksToEntry,
        ContainerCacheEntry.addMappedVirtualDisk, hdup, Bind.bind, Except.bind]
    · simp [h1, h2]
  · simp [h1]

/-- C4: adding a mapped virtual disk whose LUN is already a key of the
container entry disk map fails and leaves the registry (hence the disk
map) unchanged; when the mount steps succeed the error is precisely the
duplicate-LUN error; and an add through setupMappedVirtualDisks can only
succeed when the LUN was absent, so at most one disk is ever attached per
(container, LUN) pair. -/
theorem modifySettings_duplicate_lun (env : StorageEnv) (cache : ContainerCache)
    (id : String) (s : ResourceModificationSettings) (entry : ContainerCacheEntry)
    (d : MappedVirtualDisk)
    (hentry : getContainer cache id = some entry)
    (hdup : lookupA entry.mappedVirtualDisks s.mappedVirtualDisk.lun = some d) :
    (∃ e, modifySettings env cache id ⟨.rtAdd, .ptMappedVirtualDisk, some s⟩ =
      (.error e, cache)) ∧
    (env.getMappedVirtualDiskMountsOk = true → env.mountMappedVirtualDisksOk = true →
      (modifySettings env cache id ⟨.rtAdd, .ptMappedVirtualDisk, some s⟩).1 =
        .error (.duplicateMappedDiskLun entry.id s.mappedVirtualDisk.lun)) ∧
    (∀ (entry2 e2 : ContainerCacheEntry) (disk : MappedVirtualDisk),
      setupMappedVirtualDisks env [disk] entry2 = .ok e2 →
      lookupA entry2.mappedVirtualDisks disk.lun = none) := by
  obtain ⟨⟨e0, herr⟩, hspec⟩ :=
    setupMappedVirtualDisks_duplicate env entry s.mappedVirtualDisk d hdup
  refine ⟨⟨e0, ?_⟩, ?_, ?_⟩
  · simp [modifySettings, hentry, herr]
  · intro h1 h2
    simp [modifySettings, hentry, hspec h1 h2]
  · intro entry2 e2 disk hok
    unfold setupMappedVirtualDisks at hok
    by_cases h1 : env.getMappedVirtualDiskMountsOk
    · by_cases h2 : env.mountMappedVirtualDisksOk
      · simp only [h1, h2, not_true, if_false, ite_false, Bool.not_true] at hok
        cases hl : lookupA entry2.mappedVirtualDisks disk.lun with
        | none => rfl
        | some dd =>
          simp [addMappedVirtualDisksToEntry,
            ContainerCacheEntry.addMappedVirtualDisk, hl, Bind.bind, Except.bind] at hok
      · simp [h1, h2] at hok
    · simp [h1] at hok

/-- Fixture: all storage collaborator calls succeed. -/
def envAllOk : StorageEnv := ⟨true, true, true, true, true, true, true, true⟩

/-- Fixture disk with LUN 3. -/
def diskLun3 : MappedVirtualDisk := ⟨3, "/x"⟩

/-- Fixture directory with port 4. -/
def dirPort4 : MappedDirectory := ⟨4, "/y"⟩

/-- Fixture modification settings payload. -/
def settingsX : ResourceModificationSettings := ⟨diskLun3, dirPort4⟩

/-- Fixture entry that already holds the LUN 3 disk. -/
def entryDup : ContainerCacheEntry :=
  { newContainerCacheEntry "c" with mappedVirtualDisks := [(3, diskLun3)] }

/-- Fixture registry holding entryDup under id c. -/
def cacheDup : ContainerCache := [("c", entryDup)]

/-- Witness for C4: hot-adding LUN 3 to a container that already has LUN 3
yields the duplicate-LUN error. -/
theorem modifySettings_duplicate_lun_witness :
    (modifySettings envAllOk cacheDup "c"
        ⟨.rtAdd, .ptMappedVirtualDisk, some settingsX⟩).1 =
      .error (.duplicateMappedDiskLun "c" 3) := by
  have h := (modifySettings_duplicate_lun envAllOk cacheDup "c" settingsX entryDup
    diskLun3 rfl rfl).2.1 rfl rfl
  exact h

/-- C5: ModifySettings on an existing container with a (RequestType,
ResourceType) combination outside the four supported ones (Add and Remove
crossed with MappedVirtualDisk and MappedDirectory) fails with an
unsupported error and returns with the registry unchanged, provided the
settings cast succeeded. -/
theorem modifySettings_unsupported_combination (env : StorageEnv)
    (cache : ContainerCache) (id : String)
    (request : ResourceModificationRequestResponse) (entry : ContainerCacheEntry)
    (s : ResourceModificationSettings)
    (hentry : getContainer cache id = some entry)
    (hset : request.settings = some s)
    (hunsup : ¬ ((request.requestType = .rtAdd ∨ request.requestType = .rtRemove) ∧
      (request.resourceType = .ptMappedVirtualDisk ∨
       request.resourceType = .ptMappedDirectory))) :
    ((∃ rt pt, (modifySettings env cache id request).1 =
        .error (.unsupportedResource rt pt)) ∨
      (∃ rt, (modifySettings env cache id request).1 =
        .error (.unsupportedRequest rt))) ∧
    (modifySettings env cache id request).2 = cache := by
  obtain ⟨rt, pt, st⟩ := request
  simp only at hset
  subst hset
  cases rt with
  | rtAdd =>
    cases pt with
    | ptMappedVirtualDisk => exact absurd (by simp) hunsup
    | ptMappedDirectory => exact absurd (by simp) hunsup
    | ptOther s2 =>
      refine ⟨Or.inl ⟨.rtAdd, .ptOther s2, ?_⟩, ?_⟩ <;> simp [modifySettings, hentry]
  | rtRemove =>
    cases pt with
    | ptMappedVirtualDisk => exact absurd (by simp) hunsup
    | ptMappedDirectory => exact absurd (by simp) hunsup
    | ptOther s2 =>
      refine ⟨Or.inl ⟨.rtRemove, .ptOther s2, ?_⟩, ?_⟩ <;> simp [modifySettings, hentry]
  | rtOther s2 =>
    refine ⟨Or.inr ⟨.rtOther s2, ?_⟩, ?_⟩ <;>
      cases pt <;> simp [modifySettings, hentry]

/-- Witness for C5: an Update request on an existing container fails as
unsupported and leaves the registry untouched. -/
theorem modifySettings_unsupported_combination_witness :
    (modifySettings envAllOk cacheDup "c"
        ⟨.rtOther "Update", .ptMappedVirtualDisk, some settingsX⟩).2 = cacheDup := by
  exact (modifySettings_unsupported_combination envAllOk cacheDup "c"
    ⟨.rtOther "Update", .ptMappedVirtualDisk, some settingsX⟩ entryDup settingsX
    rfl rfl (by simp)).2

/-- C9: processParametersToOCI is a pure function of its input, and every
document it produces has the claimed fields: Args is CommandArgs verbatim
when CommandArgs is non-empty and the shell-style word split of
CommandLine otherwise; the user is uid 0, gid 0; each of the five
capability sets is the fixed eleven-capability list; the rlimits are the
single RLIMIT_NOFILE entry with soft and hard 1024; Terminal equals
EmulateConsole; NoNewPrivileges is true. -/
theorem processParametersToOCI_fields (params : ProcessParameters) (p : OCIProcess)
    (h : processParametersToOCI params = .ok p) :
    (params.commandArgs ≠ [] → p.args = params.commandArgs) ∧
    (params.commandArgs = [] →
      processParamCommandLineToOCIArgs params.commandLine = .ok p.args) ∧
    p.cwd = params.workingDirectory ∧
    p.terminal = params.emulateConsole ∧
    p.user = { uid := 0, gid := 0 } ∧
    p.capabilities.bounding = defaultCapabilities ∧
    p.capabilities.effective = defaultCapabilities ∧
    p.capabilities.inheritable = defaultCapabilities ∧
    p.capabilities.permitted = defaultCapabilities ∧
    p.capabilities.ambient = defaultCapabilities ∧
    defaultCapabilities.length = 11 ∧
    p.rlimits = [{ type := "RLIMIT_NOFILE", hard := 1024, soft := 1024 }] ∧
    p.noNewPrivileges = true := by
  unfold processParametersToOCI at h
  by_cases hc : params.commandArgs.length = 0
  · have hnil : params.commandArgs = [] := List.length_eq_zero.mp hc
    simp only [hc, if_true, Bind.bind, Except.bind, Pure.pure, Except.pure] at h
    cases hargs : processParamCommandLineToOCIArgs params.commandLine with
    | error e => rw [hargs] at h; cases h
    | ok args =>
      rw [hargs] at h
      simp only [Except.ok.injEq] at h
      subst h
      refine ⟨fun hne => absurd hnil hne, fun _ => rfl, ?_⟩
      simp [defaultCapabilities]
  · have hne : params.commandArgs ≠ [] := by
      intro hnil
      exact hc (by simp [hnil])
    simp only [hc, if_false, Bind.bind, Except.bind, Pure.pure, Except.pure] at h
    simp only [Except.ok.injEq] at h
    subst h
    refine ⟨fun _ => rfl, fun hnil => absurd hnil hne, ?_⟩
    simp [defaultCapabilities]

/-- Fixture process parameters with explicit command arguments. -/
def paramsArgs : ProcessParameters :=
  { commandArgs := ["ls", "-l"]
    commandLine := ""
    workingDirectory := "/tmp"
    environment := [("A", "b")]
    emulateConsole := false }

/-- The OCI document produced for paramsArgs. -/
def ociArgs : OCIProcess :=
  { args := ["ls", "-l"]
    cwd := "/tmp"
    env := ["A=b"]
    terminal := false
    user := { uid := 0, gid := 0 }
    capabilities :=
      { bounding := defaultCapabilities
        effective := defaultCapabilities
        inheritable := defaultCapabilities
        permitted := defaultCapabilities
        ambient := defaultCapabilities }
    rlimits := [{ type := "RLIMIT_NOFILE", hard := 1024, soft := 1024 }]
    noNewPrivileges := true }

/-- Witness for C9 at a concrete input. -/
theorem processParametersToOCI_fields_witness :
    ociArgs.args = ["ls", "-l"] ∧ ociArgs.noNewPrivileges = true := by
  obtain ⟨h1, h2, h3, h4, h5, h6, h7, h8, h9, h10, h11, h12, h13⟩ :=
    processParametersToOCI_fields paramsArgs ociArgs rfl
  exact ⟨h1 (by simp [paramsArgs]), h13⟩

theorem execProcess_pcache_cases (env : ExecEnv) (cc : ContainerCache)
    (pc : ProcessCache) (id : String) (params : ProcessParameters) :
    (execProcess env cc pc id params).pcache = pc ∨
    (execProcess env cc pc id params).pcache =
      insertA pc env.pid
        { newProcessCacheEntry id with exitWgCount := 1, hasTty := env.ptty } := by
  unfold execProcess
  cases hl : getContainer cc id with
  | none => exact Or.inl rfl
  | some entry =>
    by_cases hr : entry.hasRunInitProcess
    · cases ho : processParametersToOCI params with
      | error e => simp [hr, ho]
      | ok q =>
        by_cases hh : entry.hasContainer
        · by_cases he : env.runtimeExecOk <;> simp [hr, ho, hh, he]
        · simp [hr, ho, hh]
    · by_cases h1 : env.writeConfigOk
      · by_cases h2 : env.createContainerOk
        · by_cases h3 : env.configureAdaptersOk
          · by_cases h4 : env.startOk <;> simp [hr, h1, h2, h3, h4]
          · simp [hr, h1, h2, h3]
        · simp [hr, h1, h2]
      · simp [hr, h1]

theorem execProcess_ok_pcache (env : ExecEnv) (cc : ContainerCache)
    (pc : ProcessCache) (id : String) (params : ProcessParameters) (pid : Int)
    (h : (execProcess env cc pc id params).res = .ok pid) :
    pid = env.pid ∧
    (execProcess env cc pc id params).pcache =
      insertA pc env.pid
        { newProcessCacheEntry id with exitWgCount := 1, hasTty := env.ptty } := by
  unfold execProcess at h ⊢
  cases hl : getContainer cc id with
  | none => rw [hl] at h; cases h
  | some entry =>
    rw [hl] at h
    by_cases hr : entry.hasRunInitProcess
    · cases ho : processParametersToOCI params with
      | error e => simp [hr, ho] at h
      | ok q =>
        by_cases hh : entry.hasContainer
        · by_cases he : env.runtimeExecOk
          · simp [hr, ho, hh, he] at h ⊢
            exact h.symm
          · simp [hr, ho, hh, he] at h
        · simp [hr, ho, hh] at h
    · by_cases h1 : env.writeConfigOk
      · by_cases h2 : env.createContainerOk
        · by_cases h3 : env.configureAdaptersOk
          · by_cases h4 : env.startOk
            · simp [hr, h1, h2, h3, h4] at h ⊢
              exact h.symm
            · simp [hr, h1, h2, h3, h4] at h
          · simp [hr, h1, h2, h3] at h
        · simp [hr, h1, h2] at h
      · simp [hr, h1] at h

theorem runExternalProcess_pcache_cases (env : RunExternalEnv) (pc : ProcessCache)
    (params : ProcessParameters) :
    (runExternalProcess env pc params).2 = pc ∨
    (runExternalProcess env pc params).2 =
      insertA pc env.pid
        { newProcessCacheEntry "" with
            exitWgCount := 1, hasTty := params.emulateConsole } := by
  unfold runExternalProcess
  cases ho : processParametersToOCI params with
  | error e => simp
  | ok q =>
    by_cases hc : params.emulateConsole
    · by_cases h1 : env.newConsoleOk
      · by_cases h2 : env.openFileOk
        · by_cases h3 : env.startOk <;> simp [hc, h1, h2, h3]
        · simp [hc, h1, h2]
      · simp [hc, h1]
    · by_cases h1 : env.filesOk
      · by_cases h3 : env.startOk <;> simp [hc, h1, h3]
      · simp [hc, h1]

theorem runExternalProcess_ok_pcache (env : RunExternalEnv) (pc : ProcessCache)
    (params : ProcessParameters) (pid : Int)
    (h : (runExternalProcess env pc params).1 = .ok pid) :
    pid = env.pid ∧
    (runExternalProcess env pc params).2 =
      insertA pc env.pid
        { newProcessCacheEntry "" with
            exitWgCount := 1, hasTty := params.emulateConsole } := by
  unfold runExternalProcess at h ⊢
  cases ho : processParametersToOCI params with
  | error e => rw [ho] at h; cases h
  | ok q =>
    rw [ho] at h
    by_cases hc : params.emulateConsole
    · by_cases h1 : env.newConsoleOk
      · by_cases h2 : env.openFileOk
        · by_cases h3 : env.startOk
          · simp [hc, h1, h2, h3] at h ⊢
            exact h.symm
          · simp [hc, h1, h2, h3] at h
        · simp [hc, h1, h2] at h
      · simp [hc, h1] at h
    · by_cases h1 : env.filesOk
      · by_cases h3 : env.startOk
        · simp [hc, h1, h3] at h ⊢
          exact h.symm
        · simp [hc, h1, h3] at h
      · simp [hc, h1] at h

/-- C6: no core operation removes a process registry entry: both inserting
operations (ExecProcess and RunExternalProcess) preserve every present
PID; on success each inserts the fresh entry under the returned PID,
overwriting any prior entry for that PID; and both preserve key
uniqueness, so the registry holds at most one entry per PID.  The other
operations (SignalProcess, WaitProcess, ResizeConsole) only read the
registry. -/
theorem process_registry_never_shrinks (env : ExecEnv) (renv : RunExternalEnv)
    (cc : ContainerCache) (pc : ProcessCache) (id : String)
    (params : ProcessParameters) (q : Int) :
    ((lookupA pc q).isSome →
      (lookupA (execProcess env cc pc id params).pcache q).isSome) ∧
    ((lookupA pc q).isSome →
      (lookupA (runExternalProcess renv pc params).2 q).isSome) ∧
    (∀ pid, (execProcess env cc pc id params).res = .ok pid →
      lookupA (execProcess env cc pc id params).pcache pid =
        some { newProcessCacheEntry id with exitWgCount := 1, hasTty := env.ptty }) ∧
    (∀ pid, (runExternalProcess renv pc params).1 = .ok pid →
      lookupA (runExternalProcess renv pc params).2 pid =
        some { newProcessCacheEntry "" with
            exitWgCount := 1, hasTty := params.emulateConsole }) ∧
    ((keysA pc).Nodup → (keysA (execProcess env cc pc id params).pcache).Nodup) ∧
    ((keysA pc).Nodup → (keysA (runExternalProcess renv pc params).2).Nodup) := by
  refine ⟨?_, ?_, ?_, ?_, ?_, ?_⟩
  · intro h
    rcases execProcess_pcache_cases env cc pc id params with hc | hc <;> rw [hc]
    · exact h
    · exact lookupA_insertA_isSome pc env.pid q _ h
  · intro h
    rcases runExternalProcess_pcache_cases renv pc params with hc | hc <;> rw [hc]
    · exact h
    · exact lookupA_insertA_isSome pc renv.pid q _ h
  · intro pid hok
    obtain ⟨hpid, hc⟩ := execProcess_ok_pcache env cc pc id params pid hok
    subst hpid
    rw [hc]
    exact lookupA_insertA_self pc env.pid _
  · intro pid hok
    obtain ⟨hpid, hc⟩ := runExternalProcess_ok_pcache renv pc params pid hok
    subst hpid
    rw [hc]
    exact lookupA_insertA_self pc renv.pid _
  · intro h
    rcases execProcess_pcache_cases env cc pc id params with hc | hc <;> rw [hc]
    · exact h
    · exact keysA_nodup_insertA pc env.pid _ h
  · intro h
    rcases runExternalProcess_pcache_cases renv pc params with hc | hc <;> rw [hc]
    · exact h
    · exact keysA_nodup_insertA pc renv.pid _ h

/-- Fixture: runtime and OS collaborator calls all succeed, pid 101, no tty. -/
def envExecOk : ExecEnv := ⟨true, true, true, true, true, 101, false⟩

/-- Fixture registry with one freshly created container. -/
def ccFresh : ContainerCache := [("c", { newContainerCacheEntry "c" with exitWgCount := 1 })]

/-- Witness for C6: a successful init exec inserts pid 101 and preserves the
already-registered pid 7. -/
theorem process_registry_never_shrinks_witness :
    lookupA (execProcess envExecOk ccFresh
        [((7 : Int), newProcessCacheEntry "h")] "c" paramsArgs).pcache 101 =
      some { newProcessCacheEntry "c" with exitWgCount := 1, hasTty := false } ∧
    (lookupA (execProcess envExecOk ccFresh
        [((7 : Int), newProcessCacheEntry "h")] "c" paramsArgs).pcache 7).isSome := by
  have h := process_registry_never_shrinks envExecOk ⟨true, true, true, true, 101⟩
    ccFresh [((7 : Int), newProcessCacheEntry "h")] "c" paramsArgs 7
  exact ⟨h.2.2.1 101 (by rfl), h.1 (by rfl)⟩

/-- C1: at every instant of the init supervisor execution (every prefix of
its trace, taken as a take of the event list), a WaitContainer or
WaitProcess caller that has woken observes exactly the exit code the
supervisor stored, never the initial -1 sentinel; and whenever the
container latch is released the process latch has already been released
(process level first, container level last) and both exit code fields
already carry the stored value, so the assignments happen before the
corresponding latch releases. -/
theorem initSupervisor_assigns_before_release (waitErr : Bool) (waitCode : Int)
    (n : Nat) (s : SupState)
    (hs : s = runSup initSupervisorStart ((initSupervisorTrace waitErr waitCode).take n)) :
    (waitContainerObserve s = none ∨ waitContainerObserve s = some waitCode) ∧
    (waitProcessObserve s = none ∨ waitProcessObserve s = some waitCode) ∧
    (s.contLatch = 0 →
      s.procLatch = 0 ∧ s.contExit = waitCode ∧ s.procExit = waitCode) := by
  subst hs
  cases waitErr <;>
    rcases n with _ | _ | _ | _ | _ | _ | _ | _ | n <;>
    simp [initSupervisorTrace, runSup, supStep, initSupervisorStart,
      waitContainerObserve, waitProcessObserve, List.take]

/-- Witness for C1 at the full trace with exit code 7. -/
theorem initSupervisor_assigns_before_release_witness :
    waitContainerObserve
      (runSup initSupervisorStart ((initSupervisorTrace false 7).take 6)) = some 7 := by
  have h := initSupervisor_assigns_before_release false 7 6 _ rfl
  rcases h.1 with h0 | h0
  · exact absurd h0 (by decide)
  · exact h0

/-- C3 (amended): the exit code recorded by each supervisor always equals
the exit state code the runtime wait returned, also when the wait returned
an error (the error is only logged, the code is not reset to -1); a
successful WaitContainer observes the initial -1 exactly on the
ExecProcess failure paths that release the latch before a supervisor was
spawned; and the Wait calls return -1 alongside an error on a registry
miss. -/
theorem exit_code_flow :
    (∀ (waitErr : Bool) (waitCode : Int),
      (initSupervisorFinal waitErr waitCode).procExit = waitCode ∧
      (initSupervisorFinal waitErr waitCode).contExit = waitCode ∧
      (initSupervisorFinal waitErr waitCode).procLatch = 0 ∧
      (initSupervisorFinal waitErr waitCode).contLatch = 0) ∧
    (∀ (waitErr : Bool) (waitCode : Int) (e : ProcessCacheEntry),
      (childProcessSupervisor waitErr waitCode e).exitCode = waitCode ∧
      (externalProcessSupervisor waitErr waitCode e).exitCode = waitCode) ∧
    (∀ (env : ExecEnv) (cc : ContainerCache) (pc : ProcessCache) (id : String)
        (params : ProcessParameters) (e : ContainerCacheEntry),
      getContainer cc id = some e → e.hasRunInitProcess = false →
      e.exitWgCount = 1 → e.exitCode = -1 →
      (env.writeConfigOk = false ∨ env.createContainerOk = false ∨
        env.configureAdaptersOk = false) →
      waitContainer (execProcess env cc pc id params).ccache id = some (-1, none)) ∧
    (∀ (cc : ContainerCache) (id : String), getContainer cc id = none →
      waitContainer cc id = some (-1, some (.containerDoesNotExist id))) ∧
    (∀ (pc : ProcessCache) (pid : Int), lookupA pc pid = none →
      waitProcess pc pid = some (-1, some (.processDoesNotExist pid))) := by
  refine ⟨?_, ?_, ?_, ?_, ?_⟩
  · intro waitErr waitCode
    cases waitErr <;>
      simp [initSupervisorFinal, initSupervisorTrace, runSup, supStep,
        initSupervisorStart]
  · intro waitErr waitCode e
    exact ⟨rfl, rfl⟩
  · intro env cc pc id params e hentry hinit hwg hcode hfail
    have hY : ∀ (Y : ContainerCacheEntry), Y.exitWgCount = 0 → Y.exitCode = -1 →
        waitContainer (insertA cc id Y) id = some (-1, none) := by
      intro Y h1 h2
      unfold waitContainer getContainer
      rw [lookupA_insertA_self]
      simp [h1, h2]
    by_cases h1 : env.writeConfigOk
    · by_cases h2 : env.createContainerOk
      · by_cases h3 : env.configureAdaptersOk
        · exfalso
          rcases hfail with hf | hf | hf <;> simp_all
        · have hcc : (execProcess env cc pc id params).ccache =
              insertA cc id
                { e with
                    hasRunInitProcess := true
                    hasContainer := true
                    exitWgCount := e.exitWgCount - 1 } := by
            unfold execProcess
            rw [hentry]
            simp [hinit, h1, h2, h3]
          rw [hcc]
          exact hY _ (by simp [hwg]) (by simp [hcode])
      · have hcc : (execProcess env cc pc id params).ccache =
            insertA cc id
              { e with
                  hasRunInitProcess := true
                  exitWgCount := e.exitWgCount - 1 } := by
          unfold execProcess
          rw [hentry]
          simp [hinit, h1, h2]
        rw [hcc]
        exact hY _ (by simp [hwg]) (by simp [hcode])
    · have hcc : (execProcess env cc pc id params).ccache =
          insertA cc id
            { e with
                hasRunInitProcess := true
                exitWgCount := e.exitWgCount - 1 } := by
        unfold execProcess
        rw [hentry]
        simp [hinit, h1]
      rw [hcc]
      exact hY _ (by simp [hwg]) (by simp [hcode])
  · intro cc id h
    unfold waitContainer
    rw [h]
  · intro pc pid h
    unfold waitProcess
    rw [h]

/-- Witness for C3 (amended) at concrete inputs. -/
theorem exit_code_flow_witness :
    (initSupervisorFinal false 0).contExit = 0 ∧
    waitContainer [] "missing" = some (-1, some (.containerDoesNotExist "missing")) := by
  have h := exit_code_flow
  exact ⟨(h.1 false 0).2.1, h.2.2.2.1 [] "missing" rfl⟩

/-- Counterexample to C3 as stated: when the supervisor wait returns an
error the recorded exit code is not -1; the supervisor records the exit
state code (here 7) in both the process and the container entry, and the
child-process supervisor does the same on its entry. -/
theorem wait_error_records_state_code_cex :
    (initSupervisorFinal true 7).contExit = 7 ∧
    (initSupervisorFinal true 7).procExit = 7 ∧
    (childProcessSupervisor true 7
      { newProcessCacheEntry "c" with exitWgCount := 1 }).exitCode = 7 ∧
    ((7 : Int) = -1 → False) := by
  exact ⟨rfl, rfl, rfl, by decide⟩

/-- C10 (amended): when the first ExecProcess for a fresh container fails
at the config-file write or the runtime create step, hasRunInitProcess
remains true (it was set before the fallible steps and is never rolled
back) and the runtime handle is still absent, so every subsequent
ExecProcess for the container dispatches to the non-init path and invokes
ExecProcess on the nil runtime handle; when the failure is instead at
network-adapter configuration, the flag likewise remains true but the
runtime handle is already present (the container was created and stored
before the adapter loop). -/
theorem execProcess_init_failure_flag_persists (env : ExecEnv)
    (cc : ContainerCache) (pc : ProcessCache) (id : String)
    (params : ProcessParameters) (e : ContainerCacheEntry)
    (hentry : getContainer cc id = some e)
    (hinit : e.hasRunInitProcess = false)
    (hnoc : e.hasContainer = false) :
    ((env.writeConfigOk = false ∨ env.createContainerOk = false) →
      getContainer (execProcess env cc pc id params).ccache id =
        some { e with
                 hasRunInitProcess := true
                 exitWgCount := e.exitWgCount - 1 } ∧
      (∀ (env2 : ExecEnv) (pc2 : ProcessCache) (params2 : ProcessParameters)
          (oci : OCIProcess),
        processParametersToOCI params2 = .ok oci →
        (execProcess env2 (execProcess env cc pc id params).ccache pc2 id params2).res =
          .error .nilRuntimeHandle)) ∧
    (env.writeConfigOk = true → env.createContainerOk = true →
     env.configureAdaptersOk = false →
      getContainer (execProcess env cc pc id params).ccache id =
        some { e with
                 hasRunInitProcess := true
                 hasContainer := true
                 exitWgCount := e.exitWgCount - 1 }) := by
  constructor
  · intro hfail
    have hcc : (execProcess env cc pc id params).ccache =
        insertA cc id
          { e with
              hasRunInitProcess := true
              exitWgCount := e.exitWgCount - 1 } := by
      unfold execProcess
      rw [hentry]
      by_cases h1 : env.writeConfigOk
      · have h2 : env.createContainerOk = false := by
          rcases hfail with hf | hf
          · rw [hf] at h1; cases h1
          · exact hf
        simp [hinit, h1, h2]
      · simp [hinit, h1]
    have hget : getContainer (execProcess env cc pc id params).ccache id =
        some { e with
                 hasRunInitProcess := true
                 exitWgCount := e.exitWgCount - 1 } := by
      rw [hcc]
      unfold getContainer
      exact lookupA_insertA_self cc id _
    refine ⟨hget, ?_⟩
    intro env2 pc2 params2 oci hoci
    set cc2 := (execProcess env cc pc id params).ccache with hcc2
    unfold execProcess
    rw [hget]
    simp [hoci, hnoc]
  · intro h1 h2 h3
    have hcc : (execProcess env cc pc id params).ccache =
        insertA cc id
          { e with
              hasRunInitProcess := true
              hasContainer := true
              exitWgCount := e.exitWgCount - 1 } := by
      unfold execProcess
      rw [hentry]
      simp [hinit, h1, h2, h3]
    rw [hcc]
    unfold getContainer
    exact lookupA_insertA_self cc id _

/-- Witness for C10 (amended): after a failed config write on a fresh
container, a retried ExecProcess hits the nil runtime handle. -/
theorem execProcess_init_failure_flag_persists_witness :
    (execProcess ⟨true, true, true, true, true, 101, false⟩
      (execProcess ⟨false, true, true, true, true, 101, false⟩
        ccFresh [] "c" paramsArgs).ccache
      [] "c" paramsArgs).res = .error .nilRuntimeHandle := by
  have h := execProcess_init_failure_flag_persists
    ⟨false, true, true, true, true, 101, false⟩ ccFresh [] "c" paramsArgs
    { newContainerCacheEntry "c" with exitWgCount := 1 } rfl rfl rfl
  exact (h.1 (Or.inl rfl)).2 ⟨true, true, true, true, true, 101, false⟩ [] paramsArgs
    ociArgs rfl

/-- Fixture: an ExecEnv whose only failing collaborator call is the
network-adapter configuration. -/
def envAdapterFail : ExecEnv := ⟨true, true, false, true, true, 101, false⟩

/-- Counterexample to C10 as stated: when the first ExecProcess fails at
network-adapter configuration, the runtime handle of the surviving entry
is present (the container was created and stored before the adapter
loop), not absent as the claim asserts for every first-exec failure. -/
theorem execProcess_adapter_failure_handle_present_cex :
    (execProcess envAdapterFail ccFresh [] "c" paramsArgs).res =
      .error (.osFailure "configureAdapterInNamespace") ∧
    getContainer (execProcess envAdapterFail ccFresh [] "c" paramsArgs).ccache "c" =
      some { newContainerCacheEntry "c" with
               hasRunInitProcess := true
               hasContainer := true
               exitWgCount := 0 } ∧
    ({ newContainerCacheEntry "c" with
         hasRunInitProcess := true
         hasContainer := true
         exitWgCount := 0 } : ContainerCacheEntry).hasContainer = true := by
  exact ⟨rfl, rfl, rfl⟩
